import Mathlib

/-
Verification of the StoryForge story state-management core: the Story
aggregate, its mutation controllers (element / relationship / chapter CRUD,
versioning, AI-continuation merge) and the claims stated about them.

Modelling conventions for the shallow embedding of the JavaScript source:
  - A JS object used as a keyed map (story.elements) is an association list
    of (key, value) pairs in property-insertion order; JS objects cannot
    hold duplicate keys, so distinct-keys appears as a hypothesis where a
    proof needs it.
  - generateId() and new Date().toISOString() are environment effects whose
    results are opaque to every claim; they are modelled by the constants
    GENERATED_ID and NOW.
  - deepClone is value identity (the embedding is already by value).
  - Code that throws (createRelationship, createElement, removeChapter,
    applyContinuation reaching an undefined object) is modelled in
    Except String.
  - Free-form per-type attribute fields (traits, goals, motivation, ...)
    are carried nowhere in any claim and are omitted from the Element
    record; name and description are kept because validation and search
    read them.
-/

namespace StoryForge

/-- Opaque stand-in for utils generateId(). -/
def GENERATED_ID : String := "generated-id"

/-- Opaque stand-in for createTimestamp() = new Date().toISOString(). -/
def NOW : String := "timestamp-now"

/-- A story element (character / antagonist / location / arc / theme).
Field typ embeds the JS field named type. -/
structure Element where
  id : String
  typ : String
  name : Option String
  description : Option String
  createdAt : String
  updatedAt : String
deriving Repr, DecidableEq

/-- A JS data / updates object passed to element factories and update
operations: every field is optional because a JS literal may omit any key.
A field set to none is a key that is absent from the object. -/
structure ElementData where
  id : Option String
  typ : Option String
  name : Option String
  description : Option String
  createdAt : Option String
  updatedAt : Option String
deriving Repr, DecidableEq

/-- A chapter, from models/Story.js createChapter. -/
structure Chapter where
  id : String
  title : String
  content : String
  createdAt : String
deriving Repr, DecidableEq

/-- Updates object accepted by StoryController.updateChapter. -/
structure ChapterUpdates where
  title : Option String
  content : Option String
deriving Repr, DecidableEq

/-- A relationship, from models/Relationship.js createRelationship.
updatedAt is none until RelationshipController.update sets it (the JS
factory does not write that key). -/
structure Relationship where
  id : String
  sourceId : String
  targetId : String
  type : String
  description : String
  createdAt : String
  updatedAt : Option String
deriving Repr, DecidableEq

/-- Updates object accepted by RelationshipController.update. -/
structure RelUpdates where
  id : Option String
  sourceId : Option String
  targetId : Option String
  type : Option String
  description : Option String
deriving Repr, DecidableEq

/-- The count-only snapshot payload built by createVersionSnapshot. -/
structure SnapshotData where
  synopsis : String
  charactersCount : Nat
  antagonistsCount : Nat
  locationsCount : Nat
  arcsCount : Nat
  themesCount : Nat
  chaptersCount : Nat
  relationshipsCount : Nat
deriving Repr, DecidableEq

/-- A version snapshot, from models/Story.js createVersionSnapshot. -/
structure Version where
  id : String
  version : Nat
  timestamp : String
  summary : String
  snapshotData : SnapshotData
deriving Repr, DecidableEq

/-- The Story root aggregate. elements is the JS object in
property-insertion order. -/
structure Story where
  id : String
  title : String
  genre : String
  tone : String
  synopsis : String
  elements : List (String × List Element)
  relationships : List Relationship
  chapters : List Chapter
  currentChapterIndex : Nat
  versions : List Version
  currentVersion : Nat
  createdAt : String
  updatedAt : String
deriving Repr, DecidableEq

/-- Reading story.elements[key] on the association-list model: first pair
with that key, as JS property lookup. -/
def getB : List (String × List Element) → String → Option (List Element)
  | [], _ => none
  | (k, v) :: rest, key => if k = key then some v else getB rest key

/-- Writing story.elements[key] = v: replaces the value in place when the
key exists, otherwise appends a new property at the end of insertion
order, exactly as JS assignment does. -/
def setB : List (String × List Element) → String → List Element → List (String × List Element)
  | [], key, v => [(key, v)]
  | (k, w) :: rest, key, v =>
    if k = key then (key, v) :: rest else (k, w) :: setB rest key v

/-- Object.keys(ELEMENT_TYPES) from models/Element.js, in declaration
order. -/
def ELEMENT_TYPE_KEYS : List String :=
  ["character", "antagonist", "location", "arc", "theme"]

/-- Truthiness of ELEMENT_TYPES[type]. -/
def isElementType (t : String) : Bool := ELEMENT_TYPE_KEYS.contains t

/-- getElementStorageKey from models/Element.js: the plural storage key. -/
def getElementStorageKey (t : String) : String := t ++ "s"

/-- RELATIONSHIP_TYPES ids from models/Relationship.js, in declaration
order. -/
def RELATIONSHIP_TYPE_IDS : List String :=
  ["ally", "enemy", "family", "romantic", "mentor", "rival",
   "located_in", "drives", "opposes", "embodies"]

/-- Truthiness of getRelationshipType(type): some entry has this id. -/
def isRelationshipType (t : String) : Bool := RELATIONSHIP_TYPE_IDS.contains t

/-- models/Story.js createChapter. -/
def createChapter (title content : String) : Chapter :=
  { id := GENERATED_ID, title := title, content := content, createdAt := NOW }

/-- models/Story.js STORY_DEFAULTS.maxVersions. -/
def maxVersions : Nat := 3

/-- models/Story.js createStory: five plural element buckets, one default
chapter, no versions. -/
def createStory (title : String) : Story :=
  { id := GENERATED_ID
    title := title
    genre := ""
    tone := ""
    synopsis := ""
    elements :=
      [("characters", []), ("antagonists", []), ("locations", []),
       ("arcs", []), ("themes", [])]
    relationships := []
    chapters := [createChapter "Chapter 1" ""]
    currentChapterIndex := 0
    versions := []
    currentVersion := 1
    createdAt := NOW
    updatedAt := NOW }

/-- Length of story.elements[key], reading 0 for an absent bucket. -/
def bucketLen (s : Story) (key : String) : Nat :=
  ((getB s.elements key).getD []).length

/-- The snapshotData object of createVersionSnapshot. The JS code reads
story.elements.characters.length etc. directly and would throw on a story
missing one of the five plural buckets; claims about snapshots therefore
carry the hasTypeBuckets hypothesis under which getD [] is never reached. -/
def mkSnapshotData (s : Story) : SnapshotData :=
  { synopsis := s.synopsis
    charactersCount := bucketLen s "characters"
    antagonistsCount := bucketLen s "antagonists"
    locationsCount := bucketLen s "locations"
    arcsCount := bucketLen s "arcs"
    themesCount := bucketLen s "themes"
    chaptersCount := s.chapters.length
    relationshipsCount := s.relationships.length }

/-- models/Story.js createVersionSnapshot. -/
def createVersionSnapshot (s : Story) (summary : String) : Version :=
  { id := GENERATED_ID
    version := s.currentVersion
    timestamp := NOW
    summary := summary
    snapshotData := mkSnapshotData s }

/-- The five plural buckets installed by createStory are present. -/
def hasTypeBuckets (s : Story) : Bool :=
  ["characters", "antagonists", "locations", "arcs", "themes"].all
    (fun k => (getB s.elements k).isSome)

/-- JS spread merge: a key present in the updates object wins, an absent
key keeps the current value. -/
def mergeOpt (upd cur : Option String) : Option String :=
  match upd with
  | some v => some v
  | none => cur

/-- The object literal built inside models/Element.js createElement:
id: data.id || generateId(), type, createdAt: data.createdAt || ts,
updatedAt: ts, then ...data spread last, so every key present in data
wins (including a type key). -/
def createElementCore (t : String) (d : ElementData) : Element :=
  { id := d.id.getD GENERATED_ID
    typ := d.typ.getD t
    name := d.name
    description := d.description
    createdAt := d.createdAt.getD NOW
    updatedAt := d.updatedAt.getD NOW }

/-- models/Element.js createElement, which throws on an unknown type. -/
def createElement (t : String) (d : ElementData) : Except String Element :=
  if isElementType t then .ok (createElementCore t d)
  else .error ("Invalid element type: " ++ t)

/-- Result of models/Element.js validateElement. -/
structure Validation where
  isValid : Bool
  errors : List String
deriving Repr, DecidableEq

/-- JS String.prototype.trim on the character-list view: strip leading and
trailing whitespace. The core library String.trim is extensionally the
same function but is built on Substring primitives that do not reduce
under kernel evaluation, so the embedding works on the data list. -/
def jsTrim (s : String) : String :=
  String.mk (((s.data.dropWhile Char.isWhitespace).reverse.dropWhile Char.isWhitespace).reverse)

/-- The required-field test for the name field: !element.name catches the
absent key and the empty string, then trim() === '' catches whitespace;
together this is: absent, or trims to empty. -/
def nameAbsent (e : Element) : Bool :=
  match e.name with
  | none => true
  | some n => jsTrim n = ""

/-- models/Element.js validateElement. ELEMENT_TYPES lists requiredFields
as exactly name for each of the five types, so the requiredFields loop is
the single name check producing the string "name is required". -/
def validateElement (e : Element) (t : String) : Validation :=
  if isElementType t then
    if nameAbsent e then { isValid := false, errors := ["name is required"] }
    else { isValid := true, errors := [] }
  else { isValid := false, errors := ["Invalid element type"] }

/-- The { story, element, errors } result shape of ElementController
create / update / duplicate. Errors are the JS error map as a field-keyed
association list. -/
structure EcResult where
  story : Story
  element : Option Element
  errors : List (String × String)
deriving Repr, DecidableEq

/-- validation.errors.forEach((err, i) => errors[field_i] = err). -/
def indexErrors (errs : List String) : List (String × String) :=
  errs.enum.map (fun p => ("field_" ++ toString p.1, p.2))

/-- The bucket scan inside ElementController.getById: first bucket whose
list holds the id wins, and the result is { ...found, type } with the
bucket key as type. -/
def findByIdIn : List (String × List Element) → String → Option Element
  | [], _ => none
  | (k, es) :: rest, id =>
    match es.find? (fun e => e.id == id) with
    | some e => some { e with typ := k }
    | none => findByIdIn rest id

/-- ElementController.getById; a falsy (empty) id short-circuits to null. -/
def getById (s : Story) (id : String) : Option Element :=
  if id = "" then none else findByIdIn s.elements id

/-- ElementController.create. On success the element is pushed onto
story.elements[type] with the singular type as the key (the bucket is
created when absent), and updatedAt is bumped. -/
def ecCreate (s : Story) (t : String) (d : ElementData) : EcResult :=
  if isElementType t then
    let e := createElementCore t d
    let v := validateElement e t
    if v.isValid then
      { story :=
          { s with
            elements := setB s.elements t (((getB s.elements t).getD []) ++ [e])
            updatedAt := NOW }
        element := some e
        errors := [] }
    else { story := s, element := none, errors := indexErrors v.errors }
  else
    { story := s, element := none
      errors := [("type", "Invalid element type: " ++ t)] }

/-- The merge { ...existing, ...updates, id, type: existing.type,
updatedAt: ts } inside ElementController.update. -/
def mergeEcUpdates (e : Element) (u : ElementData) (id typ : String) : Element :=
  { id := id
    typ := typ
    name := mergeOpt u.name e.name
    description := mergeOpt u.description e.description
    createdAt := u.createdAt.getD e.createdAt
    updatedAt := NOW }

/-- ElementController.update: locate by id, merge preserving id and type,
re-validate, then replace at the index found by id match. -/
def ecUpdate (s : Story) (id : String) (u : ElementData) : EcResult :=
  match getById s id with
  | none => { story := s, element := none, errors := [("id", "Element not found")] }
  | some existing =>
    let merged := mergeEcUpdates existing u id existing.typ
    let v := validateElement merged existing.typ
    if v.isValid then
      let arr := (getB s.elements existing.typ).getD []
      let i := arr.findIdx (fun e => e.id == id)
      if i < arr.length then
        { story :=
            { s with
              elements := setB s.elements existing.typ (arr.set i merged)
              updatedAt := NOW }
          element := some merged
          errors := [] }
      else { story := s, element := some merged, errors := [] }
    else { story := s, element := none, errors := indexErrors v.errors }

/-- The { story, deleted, errors } result shape of the remove
operations. -/
structure RemoveResult where
  story : Story
  deleted : Bool
  errors : List (String × String)
deriving Repr, DecidableEq

/-- ElementController.remove: drops the element from its bucket and
cascades by stripping every relationship whose sourceId or targetId is the
removed id. -/
def ecRemove (s : Story) (id : String) : RemoveResult :=
  match getById s id with
  | none => { story := s, deleted := false, errors := [("id", "Element not found")] }
  | some existing =>
    let arr := (getB s.elements existing.typ).getD []
    { story :=
        { s with
          elements := setB s.elements existing.typ (arr.filter (fun e => e.id != id))
          relationships :=
            s.relationships.filter (fun r => r.sourceId != id && r.targetId != id)
          updatedAt := NOW }
      deleted := true
      errors := [] }

/-- ElementController.duplicate: clones the found element minus type, with
name renamed to "name (Copy)" and the id key reset so a fresh one is
generated, then delegates to create. A missing name stringifies to
"undefined" in the JS template literal. The JS code writes id: undefined
(a present key holding undefined); since ids are opaque this is modelled
as the absent key, which makes create generate a fresh id. -/
def ecDuplicate (s : Story) (id : String) : EcResult :=
  match getById s id with
  | none => { story := s, element := none, errors := [("id", "Element not found")] }
  | some existing =>
    let d : ElementData :=
      { id := none
        typ := none
        name := some ((existing.name.getD "undefined") ++ " (Copy)")
        description := existing.description
        createdAt := some existing.createdAt
        updatedAt := some existing.updatedAt }
    ecCreate s existing.typ d

/-- ElementController.reorder: silent no-op on a missing bucket or an
out-of-bounds index, otherwise a splice-out / splice-in move. Negative JS
indices are outside the Nat embedding; no claim touches them. -/
def ecReorder (s : Story) (t : String) (fromIndex toIndex : Nat) : Story :=
  match getB s.elements t with
  | none => s
  | some arr =>
    if fromIndex ≥ arr.length then s
    else if toIndex ≥ arr.length then s
    else
      match arr.get? fromIndex with
      | none => s
      | some removed =>
        { s with
          elements :=
            setB s.elements t ((arr.eraseIdx fromIndex).insertIdx toIndex removed)
          updatedAt := NOW }

/-- models/Relationship.js createRelationship, which throws on a falsy
endpoint id or an unknown type. -/
def createRelationship (sourceId targetId rtype description : String) :
    Except String Relationship :=
  if sourceId = "" || targetId = "" then
    .error "Source and target IDs are required"
  else if isRelationshipType rtype then
    .ok
      { id := GENERATED_ID
        sourceId := sourceId
        targetId := targetId
        type := rtype
        description := description
        createdAt := NOW
        updatedAt := none }
  else .error ("Invalid relationship type: " ++ rtype)

/-- models/Relationship.js relationshipExists: some relationship joins the
unordered pair in either direction. -/
def relationshipExists (rels : List Relationship) (sourceId targetId : String) : Bool :=
  rels.any (fun r =>
    (r.sourceId == sourceId && r.targetId == targetId) ||
    (r.sourceId == targetId && r.targetId == sourceId))

/-- models/Relationship.js removeRelationshipsForElement. -/
def removeRelationshipsForElement (rels : List Relationship) (elementId : String) :
    List Relationship :=
  rels.filter (fun r => r.sourceId != elementId && r.targetId != elementId)

/-- models/Relationship.js validateRelationship: the field-keyed error
map, in the key order the JS code writes it. -/
def validateRelationship (r : Relationship) : List (String × String) :=
  (if r.sourceId = "" then [("sourceId", "Source element is required")] else []) ++
  (if r.targetId = "" then [("targetId", "Target element is required")] else []) ++
  (if r.type = "" then [("type", "Relationship type is required")]
   else if isRelationshipType r.type then []
   else [("type", "Invalid relationship type")]) ++
  (if r.sourceId = r.targetId then
    [("general", "Cannot create relationship with self")]
   else [])

/-- The { canCreate, reason } result of RelationshipController.canCreate. -/
structure CanCreateResult where
  canCreate : Bool
  reason : Option String
deriving Repr, DecidableEq

/-- RelationshipController.canCreate: self-reference, then existing
relationship in either direction, then unknown type; the first failing
check wins. -/
def rcCanCreate (s : Story) (sourceId targetId rtype : String) : CanCreateResult :=
  if sourceId = targetId then
    { canCreate := false, reason := some "Cannot create relationship with self" }
  else if relationshipExists s.relationships sourceId targetId then
    { canCreate := false, reason := some "Relationship already exists" }
  else if isRelationshipType rtype then { canCreate := true, reason := none }
  else { canCreate := false, reason := some "Invalid relationship type" }

/-- RelationshipController.getById; a falsy id short-circuits to null. -/
def rcGetById (s : Story) (id : String) : Option Relationship :=
  if id = "" then none else s.relationships.find? (fun r => r.id == id)

/-- The { story, relationship, errors } result shape of
RelationshipController create / update / swapDirection. -/
structure RcResult where
  story : Story
  relationship : Option Relationship
  errors : List (String × String)
deriving Repr, DecidableEq

/-- The destructured data argument of RelationshipController.create. -/
structure RelationshipData where
  sourceId : String
  targetId : String
  type : String
  description : String
deriving Repr, DecidableEq

/-- RelationshipController.create: canCreate gate first (rejection is an
error-map return, not a throw), then the factory (which can throw, hence
Except), then validateRelationship, then push. -/
def rcCreate (s : Story) (d : RelationshipData) : Except String RcResult :=
  let c := rcCanCreate s d.sourceId d.targetId d.type
  if c.canCreate then do
    let rel ← createRelationship d.sourceId d.targetId d.type d.description
    let errors := validateRelationship rel
    if errors.isEmpty then
      pure
        { story :=
            { s with relationships := s.relationships ++ [rel], updatedAt := NOW }
          relationship := some rel
          errors := [] }
    else pure { story := s, relationship := none, errors := errors }
  else
    .ok { story := s, relationship := none
          errors := [("general", c.reason.getD "")] }

/-- RelationshipController.update: merge { ...existing, ...updates, id,
sourceId: existing.sourceId, targetId: existing.targetId, updatedAt: ts },
re-validate, then replace at the index found by id match. createdAt is not
a key of the updates shape, so the spread leaves it at the existing
value. -/
def rcUpdate (s : Story) (id : String) (u : RelUpdates) : RcResult :=
  match rcGetById s id with
  | none => { story := s, relationship := none, errors := [("id", "Relationship not found")] }
  | some existing =>
    let updated : Relationship :=
      { id := id
        sourceId := existing.sourceId
        targetId := existing.targetId
        type := u.type.getD existing.type
        description := u.description.getD existing.description
        createdAt := existing.createdAt
        updatedAt := some NOW }
    let errors := validateRelationship updated
    if errors.isEmpty then
      let i := s.relationships.findIdx (fun r => r.id == id)
      if i < s.relationships.length then
        { story :=
            { s with relationships := s.relationships.set i updated, updatedAt := NOW }
          relationship := some updated
          errors := [] }
      else { story := s, relationship := some updated, errors := [] }
    else { story := s, relationship := none, errors := errors }

/-- RelationshipController.remove: splice out the first index whose id
matches. The relationships collection is always a list in the embedding,
so the JS branch for an absent collection is unrepresentable. -/
def rcRemove (s : Story) (id : String) : RemoveResult :=
  match s.relationships.findIdx? (fun r => r.id == id) with
  | none => { story := s, deleted := false, errors := [("id", "Relationship not found")] }
  | some i =>
    { story :=
        { s with relationships := s.relationships.eraseIdx i, updatedAt := NOW }
      deleted := true
      errors := [] }

/-- The { story, count } result of removeForElement. -/
structure RcCountResult where
  story : Story
  count : Nat
deriving Repr, DecidableEq

/-- RelationshipController.removeForElement: bulk cascade filter;
updatedAt is bumped only when something was removed. -/
def rcRemoveForElement (s : Story) (elementId : String) : RcCountResult :=
  let kept :=
    s.relationships.filter (fun r => r.sourceId != elementId && r.targetId != elementId)
  let removedCount := s.relationships.length - kept.length
  if removedCount > 0 then
    { story := { s with relationships := kept, updatedAt := NOW }, count := removedCount }
  else { story := { s with relationships := kept }, count := 0 }

/-- RelationshipController.swapDirection: looks up the relationship and
delegates to update with the two endpoint keys exchanged in the updates
object. -/
def rcSwapDirection (s : Story) (id : String) : RcResult :=
  match rcGetById s id with
  | none => { story := s, relationship := none, errors := [("id", "Relationship not found")] }
  | some existing =>
    rcUpdate s id
      { id := none
        sourceId := some existing.targetId
        targetId := some existing.sourceId
        type := none
        description := none }

/-- StoryController.addChapter: a falsy (empty) title argument defaults to
"Chapter N"; currentChapterIndex moves to the new last chapter. -/
def scAddChapter (s : Story) (title : String) : Story :=
  let chapterNum := s.chapters.length + 1
  let effectiveTitle := if title = "" then "Chapter " ++ toString chapterNum else title
  { s with
    chapters := s.chapters ++ [createChapter effectiveTitle ""]
    currentChapterIndex := s.chapters.length
    updatedAt := NOW }

/-- Array.prototype.map with the element index, as chapters.map((ch, i)
=> ...) uses it: the accumulator argument is the index of the head. -/
def mapWithIdx (f : Nat → Chapter → Chapter) : Nat → List Chapter → List Chapter
  | _, [] => []
  | i, c :: rest => f i c :: mapWithIdx f (i + 1) rest

/-- StoryController.updateChapter: map over chapters replacing the one at
the addressed index with { ...ch, ...updates }. -/
def scUpdateChapter (s : Story) (i : Nat) (u : ChapterUpdates) : Story :=
  { s with
    chapters :=
      mapWithIdx
        (fun j ch =>
          if j = i then
            { ch with title := u.title.getD ch.title, content := u.content.getD ch.content }
          else ch)
        0 s.chapters
    updatedAt := NOW }

/-- StoryController.removeChapter: throws when only one chapter remains;
otherwise filters out the addressed index (eraseIdx is exactly the JS
filter over positions) and clamps currentChapterIndex with the old length
minus two. -/
def scRemoveChapter (s : Story) (i : Nat) : Except String Story :=
  if s.chapters.length ≤ 1 then .error "Cannot delete the only chapter"
  else
    .ok
      { s with
        chapters := s.chapters.eraseIdx i
        currentChapterIndex := min s.currentChapterIndex (s.chapters.length - 2)
        updatedAt := NOW }

/-- Array.prototype.slice(-n) for the version cap: the last n entries. -/
def lastN (n : Nat) (l : List α) : List α := (l.reverse.take n).reverse

/-- StoryController.createVersion: append a snapshot, truncate to the most
recent maxVersions entries when over the cap, bump currentVersion. -/
def scCreateVersion (s : Story) (summary : String) : Story :=
  let snapshot := createVersionSnapshot s summary
  let grown := s.versions ++ [snapshot]
  let versions := if grown.length > maxVersions then lastN maxVersions grown else grown
  { s with
    versions := versions
    currentVersion := s.currentVersion + 1
    updatedAt := NOW }

/-- StoryController.addElement: push onto the plural storage bucket,
creating it when absent. The factory can throw on an unknown type. -/
def scAddElement (s : Story) (t : String) (d : ElementData) : Except String Story := do
  let key := getElementStorageKey t
  let e ← createElement t d
  pure
    { s with
      elements := setB s.elements key (((getB s.elements key).getD []) ++ [e])
      updatedAt := NOW }

/-- The merge { ...el, ...updates, updatedAt: ts } inside
StoryController.updateElement: unlike the ElementController path, the id
and type keys of the updates object do win here. -/
def mergeScUpdates (e : Element) (u : ElementData) : Element :=
  { id := u.id.getD e.id
    typ := u.typ.getD e.typ
    name := mergeOpt u.name e.name
    description := mergeOpt u.description e.description
    createdAt := u.createdAt.getD e.createdAt
    updatedAt := NOW }

/-- StoryController.updateElement: the JS code maps over
story.elements[key] directly and throws a TypeError when that plural
bucket is absent. -/
def scUpdateElement (s : Story) (t elementId : String) (u : ElementData) :
    Except String Story :=
  let key := getElementStorageKey t
  match getB s.elements key with
  | none => .error "TypeError: story.elements[key] is undefined"
  | some arr =>
    .ok
      { s with
        elements :=
          setB s.elements key
            (arr.map (fun el => if el.id == elementId then mergeScUpdates el u else el))
        updatedAt := NOW }

/-- StoryController.addRelationship: factory (which can throw) then
push. -/
def scAddRelationship (s : Story) (sourceId targetId rtype description : String) :
    Except String Story := do
  let rel ← createRelationship sourceId targetId rtype description
  pure { s with relationships := s.relationships ++ [rel], updatedAt := NOW }

/-- The bucket walk of StoryController.findElementId: for each of the five
types in declaration order, search the plural bucket for an element whose
id or name equals the query; the first match wins. -/
def findElementIdIn : List String → Story → String → Option String
  | [], _, _ => none
  | t :: rest, s, x =>
    match ((getB s.elements (getElementStorageKey t)).getD []).find?
        (fun el => el.id == x || el.name == some x) with
    | some el => some el.id
    | none => findElementIdIn rest s x

/-- StoryController.findElementId. -/
def findElementId (s : Story) (idOrName : String) : Option String :=
  findElementIdIn ELEMENT_TYPE_KEYS s idOrName

/-- The newElements object of a continuation payload, keyed by the plural
bucket names the code reads; keys other than the five are never read. -/
structure NewElements where
  characters : List ElementData
  antagonists : List ElementData
  locations : List ElementData
  arcs : List ElementData
  themes : List ElementData
deriving Repr, DecidableEq

/-- cont.newElements[getElementStorageKey type] || [] for a singular
type. -/
def NewElements.bucket (ne : NewElements) (t : String) : List ElementData :=
  if t = "character" then ne.characters
  else if t = "antagonist" then ne.antagonists
  else if t = "location" then ne.locations
  else if t = "arc" then ne.arcs
  else if t = "theme" then ne.themes
  else []

/-- One entry of cont.updatedElements; uid embeds the JS field _id. -/
structure UpdatedElement where
  type : String
  uid : String
  updates : ElementData
deriving Repr, DecidableEq

/-- One entry of cont.newRelationships, endpoints by name or id. -/
structure RelProposal where
  source : String
  target : String
  type : String
  description : String
deriving Repr, DecidableEq

/-- The continuation payload inside a ContinuationOption; an absent key is
none and an object-valued key is some even when empty, matching JS
truthiness for the conditionals that guard each phase. -/
structure Continuation where
  chapterContent : String
  synopsis : Option String
  newElements : Option NewElements
  updatedElements : Option (List UpdatedElement)
  newRelationships : Option (List RelProposal)
deriving Repr, DecidableEq

/-- A continuation option: title plus payload. -/
structure ContinuationOption where
  title : String
  continuation : Continuation
deriving Repr, DecidableEq

/-- Phase 4 of applyContinuation: for each of the five types in order, add
every proposed new element of that type. -/
def applyNewElements (s : Story) (ne : NewElements) : Except String Story :=
  ELEMENT_TYPE_KEYS.foldlM
    (fun acc t => (ne.bucket t).foldlM (fun acc2 d => scAddElement acc2 t d) acc) s

/-- Phase 5 of applyContinuation: apply each updated-element patch by
id. -/
def applyUpdatedElements (s : Story) (ups : List UpdatedElement) : Except String Story :=
  ups.foldlM (fun acc u => scUpdateElement acc u.type u.uid u.updates) s

/-- Phase 6 of applyContinuation: resolve each proposal endpoint by name
or id; a proposal with an unresolvable endpoint is silently dropped. -/
def applyNewRelationships (s : Story) (rels : List RelProposal) : Except String Story :=
  rels.foldlM
    (fun acc rel =>
      match findElementId acc rel.source, findElementId acc rel.target with
      | some sourceId, some targetId =>
        scAddRelationship acc sourceId targetId rel.type rel.description
      | _, _ => .ok acc)
    s

/-- Phase 3 of applyContinuation: if (cont.synopsis) overwrite; an absent
key and the falsy empty string both leave the synopsis alone. -/
def applySynopsis (s : Story) (syn : Option String) : Story :=
  match syn with
  | some v => if v = "" then s else { s with synopsis := v }
  | none => s

/-- The conditional guard around phase 4: if (cont.newElements). -/
def phaseNewElements (ne : Option NewElements) (s : Story) : Except String Story :=
  match ne with
  | some payload => applyNewElements s payload
  | none => .ok s

/-- The conditional guard around phase 5: if (cont.updatedElements). -/
def phaseUpdatedElements (ups : Option (List UpdatedElement)) (s : Story) :
    Except String Story :=
  match ups with
  | some payload => applyUpdatedElements s payload
  | none => .ok s

/-- The conditional guard around phase 6: if (cont.newRelationships). -/
def phaseNewRelationships (rels : Option (List RelProposal)) (s : Story) :
    Except String Story :=
  match rels with
  | some payload => applyNewRelationships s payload
  | none => .ok s

/-- StoryController.applyContinuation: pre-change snapshot labelled with
the continuation title, append (never replace) the narrative text onto the
addressed chapter, conditionally overwrite the synopsis when the payload
supplies a truthy one, then the three element / relationship phases. The
JS code reads chapters[chapterIndex].content and throws on an out-of-range
index. -/
def applyContinuation (s : Story) (c : ContinuationOption) (chapterIndex : Nat) :
    Except String Story :=
  let s1 := scCreateVersion s ("Before: " ++ c.title)
  match s1.chapters.get? chapterIndex with
  | none => .error "TypeError: chapters[chapterIndex] is undefined"
  | some ch =>
    let s2 := scUpdateChapter s1 chapterIndex
      { title := none
        content := some (ch.content ++ "\n\n" ++ c.continuation.chapterContent) }
    let s3 := applySynopsis s2 c.continuation.synopsis
    phaseNewElements c.continuation.newElements s3 >>=
      phaseUpdatedElements c.continuation.updatedElements >>=
        phaseNewRelationships c.continuation.newRelationships

/-- The abbreviated element record built by AIService.compileStoryState;
cid embeds the JS field _id, and the free-form type-specific fields
(traits, goals, motivation, ...) are outside the Element embedding. -/
structure CompiledElement where
  cid : String
  name : Option String
  description : Option String
  typ : String
deriving Repr, DecidableEq

/-- The element-list portion of AIService.compileStoryState: for each type
in Object.keys(ELEMENT_TYPES) the code sets key = type and reads
story.elements[key] with the singular type as the key. -/
def compileElements (s : Story) : List (String × List CompiledElement) :=
  ELEMENT_TYPE_KEYS.map (fun t =>
    (t,
      ((getB s.elements t).getD []).map (fun el =>
        { cid := el.id, name := el.name, description := el.description, typ := el.typ })))

/-- How often an element id occurs across all buckets of an elements map.
A JS story holds each element exactly once, so claims that need id
uniqueness carry countId as a hypothesis. -/
def countId (m : List (String × List Element)) (id : String) : Nat :=
  (m.map (fun p => p.2.countP (fun e => e.id == id))).sum

/-- n successive createVersion calls, call k carrying summary f k. -/
def iterCreateVersion (s : Story) (f : Nat → String) : Nat → Story
  | 0 => s
  | n + 1 => scCreateVersion (iterCreateVersion s f n) (f n)

/-- The snapshot appended by call k + 1 of the iteration. -/
def snapAt (s : Story) (f : Nat → String) (k : Nat) : Version :=
  createVersionSnapshot (iterCreateVersion s f k) (f k)

/-- The story invariants of the spec data model: at least one chapter,
currentChapterIndex a valid index, and the element-type buckets
established at creation present. -/
def StoryInv (s : Story) : Prop :=
  s.chapters ≠ [] ∧ s.currentChapterIndex < s.chapters.length ∧ hasTypeBuckets s = true

/-- A continuation option carrying only narrative text, as in the
append-only scenario. -/
def textOnlyContinuation (title chapterContent : String) : ContinuationOption :=
  { title := title
    continuation :=
      { chapterContent := chapterContent
        synopsis := none
        newElements := none
        updatedElements := none
        newRelationships := none } }

/-- Concrete data object with a valid name, for witnesses. -/
def wData : ElementData :=
  { id := none, typ := none, name := some "Alice", description := none,
    createdAt := none, updatedAt := none }

/-- Concrete element a, for witnesses. -/
def wElA : Element :=
  { id := "a", typ := "character", name := some "A", description := none,
    createdAt := NOW, updatedAt := NOW }

/-- Concrete element b, for witnesses. -/
def wElB : Element :=
  { id := "b", typ := "character", name := some "B", description := none,
    createdAt := NOW, updatedAt := NOW }

/-- Concrete relationship a -> b, for witnesses. -/
def wRel : Relationship :=
  { id := "r1", sourceId := "a", targetId := "b", type := "ally",
    description := "", createdAt := NOW, updatedAt := none }

/-- Concrete story holding elements a, b and the relationship between
them, for witnesses. -/
def wStory : Story :=
  { createStory "W" with
    elements :=
      [("characters", [wElA, wElB]), ("antagonists", []), ("locations", []),
       ("arcs", []), ("themes", [])]
    relationships := [wRel] }

/-- Concrete chapter with the scenario content, for witnesses. -/
def wChapter : Chapter :=
  { id := "c1", title := "One", content := "Once upon a time.", createdAt := NOW }

/-- Concrete one-chapter story, for witnesses. -/
def wStory1 : Story := { wStory with chapters := [wChapter] }

/-- Concrete two-chapter story with the second chapter current, for
witnesses. -/
def wStory2 : Story :=
  { wStory with
    chapters := [wChapter, { wChapter with id := "c2", title := "Two" }]
    currentChapterIndex := 1 }

theorem getB_setB_self (m : List (String × List Element)) (k : String) (v : List Element) :
    getB (setB m k v) k = some v := by
  induction m with
  | nil => simp [setB, getB]
  | cons p rest ih =>
    obtain ⟨a, w⟩ := p
    by_cases h : a = k <;> simp [setB, getB, h, ih]

theorem getB_setB_ne (m : List (String × List Element)) (k : String) (v : List Element)
    (k' : String) (h : k' ≠ k) : getB (setB m k v) k' = getB m k' := by
  induction m with
  | nil => simp [setB, getB, Ne.symm h]
  | cons p rest ih =>
    obtain ⟨a, w⟩ := p
    by_cases ha : a = k
    · subst ha; simp [setB, getB, Ne.symm h]
    · simp [setB, getB, ha, ih]

theorem isSome_getB_setB (m : List (String × List Element)) (k : String)
    (v : List Element) (k' : String) (h : (getB m k').isSome = true) :
    (getB (setB m k v) k').isSome = true := by
  by_cases hk : k' = k
  · subst hk; rw [getB_setB_self]; rfl
  · rw [getB_setB_ne m k v k' hk]; exact h

/-- C2: the claim says swapDirection(story, id) exchanges the endpoints.
On the concrete story holding the relationship r1 from a to b, the code
returns the relationship and the stored list both still directed a to b:
the updates object passed by swapDirection is clobbered by update's
endpoint-preservation merge, contradicting the function's own
documentation (Swap relationship direction). -/
theorem c2_swapDirection_keeps_endpoints :
    (rcSwapDirection wStory "r1").relationship.map
        (fun r => (r.sourceId, r.targetId)) = some ("a", "b") ∧
    (rcSwapDirection wStory "r1").story.relationships.map
        (fun r => (r.sourceId, r.targetId)) = [("a", "b")] := by
  decide

/-- C7: removeChapter raises (an Except error, modelling the JS throw) on
a story with exactly one chapter; on a story with exactly two chapters and
a valid index it succeeds, removes the addressed chapter, and clamps
currentChapterIndex to 0. -/
theorem c7_removeChapter_contract (s : Story) (i : Nat) :
    (s.chapters.length = 1 → scRemoveChapter s i = .error "Cannot delete the only chapter") ∧
    (s.chapters.length = 2 → i < 2 →
      ∃ s', scRemoveChapter s i = .ok s' ∧ s'.chapters = s.chapters.eraseIdx i ∧
        s'.chapters.length = 1 ∧ s'.currentChapterIndex = 0) := by
  constructor
  · intro h
    simp [scRemoveChapter, h]
  · intro h hi
    have hlen : ¬ s.chapters.length ≤ 1 := by omega
    refine
      ⟨{ s with
          chapters := s.chapters.eraseIdx i
          currentChapterIndex := min s.currentChapterIndex (s.chapters.length - 2)
          updatedAt := NOW },
        by simp [scRemoveChapter, hlen], rfl, ?_, ?_⟩
    · show (s.chapters.eraseIdx i).length = 1
      have := List.length_eraseIdx_add_one (l := s.chapters) (i := i) (by omega)
      omega
    · show min s.currentChapterIndex (s.chapters.length - 2) = 0
      simp [h]

/-- C7 witness: the one-chapter story raises and the two-chapter story
succeeds with currentChapterIndex clamped to 0. -/
theorem c7_removeChapter_contract_witness :
    scRemoveChapter wStory1 0 = .error "Cannot delete the only chapter" ∧
    ∃ s', scRemoveChapter wStory2 1 = .ok s' ∧ s'.chapters = wStory2.chapters.eraseIdx 1 ∧
      s'.chapters.length = 1 ∧ s'.currentChapterIndex = 0 :=
  ⟨(c7_removeChapter_contract wStory1 0).1 (by decide),
   (c7_removeChapter_contract wStory2 1).2 (by decide) (by decide)⟩

/-- C8: canCreate is symmetric in its duplicate check: when a relationship
joins a and b in either direction and a is distinct from b, canCreate for
the reversed pair and any type is rejected with the reason Relationship
already exists. -/
theorem c8_canCreate_symmetric (s : Story) (a b t : String) (r : Relationship)
    (hr : r ∈ s.relationships)
    (hab : (r.sourceId = a ∧ r.targetId = b) ∨ (r.sourceId = b ∧ r.targetId = a))
    (hne : a ≠ b) :
    rcCanCreate s b a t =
      { canCreate := false, reason := some "Relationship already exists" } := by
  have hba : ¬ b = a := fun h => hne h.symm
  have hex : relationshipExists s.relationships b a = true := by
    simp only [relationshipExists, List.any_eq_true]
    refine ⟨r, hr, ?_⟩
    rcases hab with ⟨h1, h2⟩ | ⟨h1, h2⟩ <;> simp [h1, h2]
  simp [rcCanCreate, hba, hex]

/-- C8 witness: the concrete story holds r1 from a to b, and canCreate on
the pair b, a with a different type is rejected as a duplicate. -/
theorem c8_canCreate_symmetric_witness :
    rcCanCreate wStory "b" "a" "enemy" =
      { canCreate := false, reason := some "Relationship already exists" } :=
  c8_canCreate_symmetric wStory "a" "b" "enemy" wRel (by decide)
    (Or.inl (by decide)) (by decide)

/-- C10: whatever the updates object holds, including attempts to set id,
sourceId or targetId, a relationship returned by update keeps the existing
identity fields (and createdAt); only type and description follow the
updates object. -/
theorem c10_update_preserves_identity (s : Story) (id : String) (u : RelUpdates)
    (e r : Relationship) (he : rcGetById s id = some e)
    (hr : (rcUpdate s id u).relationship = some r) :
    r.id = e.id ∧ r.sourceId = e.sourceId ∧ r.targetId = e.targetId ∧
    r.createdAt = e.createdAt ∧ r.type = u.type.getD e.type ∧
    r.description = u.description.getD e.description := by
  have hid : e.id = id := by
    unfold rcGetById at he
    split at he
    · exact absurd he (by simp)
    · simpa using List.find?_some he
  unfold rcUpdate at hr
  rw [he] at hr
  dsimp only at hr
  split at hr
  · split at hr <;>
      · simp only [Option.some.injEq] at hr
        subst hr
        exact ⟨hid.symm, rfl, rfl, rfl, rfl, rfl⟩
  · simp at hr

/-- C10 witness: updating r1 while attempting to overwrite every identity
field returns a relationship still identified and directed as before, with
only type and description changed. -/
theorem c10_update_preserves_identity_witness :
    ∃ r, (rcUpdate wStory "r1"
      { id := some "zz", sourceId := some "b", targetId := some "a",
        type := some "enemy", description := some "rivalry" }).relationship = some r ∧
      (r.id = wRel.id ∧ r.sourceId = wRel.sourceId ∧ r.targetId = wRel.targetId ∧
        r.createdAt = wRel.createdAt ∧
        r.type = (some "enemy").getD wRel.type ∧
        r.description = (some "rivalry").getD wRel.description) := by
  have h :
      (rcUpdate wStory "r1"
        { id := some "zz", sourceId := some "b", targetId := some "a",
          type := some "enemy", description := some "rivalry" }).relationship =
      some
        { id := "r1", sourceId := "a", targetId := "b", type := "enemy",
          description := "rivalry", createdAt := NOW, updatedAt := some NOW } := by
    decide
  exact ⟨_, h, c10_update_preserves_identity wStory "r1" _ wRel _ (by decide) h⟩

theorem validateElement_name_ok (t : String) (d : ElementData) (n : String)
    (ht : isElementType t = true) (hname : d.name = some n) (hn : jsTrim n ≠ "") :
    (validateElement (createElementCore t d) t).isValid = true := by
  simp [validateElement, ht, nameAbsent, createElementCore, hname, hn]

theorem ecCreate_success (s : Story) (t : String) (d : ElementData)
    (ht : isElementType t = true)
    (hvalid : (validateElement (createElementCore t d) t).isValid = true) :
    ecCreate s t d =
      { story :=
          { s with
            elements :=
              setB s.elements t (((getB s.elements t).getD []) ++ [createElementCore t d])
            updatedAt := NOW }
        element := some (createElementCore t d)
        errors := [] } := by
  simp [ecCreate, ht, hvalid]

theorem isElementType_cases (t : String) (ht : isElementType t = true) :
    t = "character" ∨ t = "antagonist" ∨ t = "location" ∨ t = "arc" ∨ t = "theme" := by
  simpa [isElementType, ELEMENT_TYPE_KEYS] using ht

/-- C3: creating an element of a valid type from data with a non-blank
name grows that type's bucket by exactly one and leaves every other bucket
untouched. -/
theorem c3_create_grows_bucket_by_one (s : Story) (t : String) (d : ElementData)
    (n : String) (ht : isElementType t = true) (hname : d.name = some n)
    (hn : jsTrim n ≠ "") :
    bucketLen (ecCreate s t d).story t = bucketLen s t + 1 ∧
    ∀ k, k ≠ t → getB (ecCreate s t d).story.elements k = getB s.elements k := by
  have hvalid := validateElement_name_ok t d n ht hname hn
  rw [ecCreate_success s t d ht hvalid]
  constructor
  · simp [bucketLen, getB_setB_self]
  · intro k hk
    exact getB_setB_ne s.elements t _ k hk

/-- C3 witness: creating a named character on the concrete story grows the
character bucket by one and leaves the antagonists bucket unchanged. -/
theorem c3_create_grows_bucket_by_one_witness :
    bucketLen (ecCreate wStory "character" wData).story "character" =
      bucketLen wStory "character" + 1 ∧
    getB (ecCreate wStory "character" wData).story.elements "antagonists" =
      getB wStory.elements "antagonists" :=
  ⟨(c3_create_grows_bucket_by_one wStory "character" wData "Alice" (by decide) (by decide)
      (by decide)).1,
   (c3_create_grows_bucket_by_one wStory "character" wData "Alice" (by decide) (by decide)
      (by decide)).2 "antagonists" (by decide)⟩

/-- C4: on a fresh createStory story, create appends the new element under
the singular key (which createStory never initialized), the plural bucket
createStory installed stays unchanged, and the compileStoryState element
lists read the singular key, so the transport list for the type holds
exactly the new element. -/
theorem c4_singular_plural_split (title t : String) (d : ElementData) (n : String)
    (ht : isElementType t = true) (hname : d.name = some n) (hn : jsTrim n ≠ "") :
    getB (createStory title).elements t = none ∧
    getB (ecCreate (createStory title) t d).story.elements t =
      some [createElementCore t d] ∧
    getB (ecCreate (createStory title) t d).story.elements (getElementStorageKey t) =
      getB (createStory title).elements (getElementStorageKey t) ∧
    (compileElements (ecCreate (createStory title) t d).story).lookup t =
      some
        [{ cid := (createElementCore t d).id, name := (createElementCore t d).name,
           description := (createElementCore t d).description,
           typ := (createElementCore t d).typ }] := by
  have hvalid := validateElement_name_ok t d n ht hname hn
  have hsucc := ecCreate_success (createStory title) t d ht hvalid
  rcases isElementType_cases t ht with rfl | rfl | rfl | rfl | rfl <;>
    rw [hsucc] <;>
    simp [createStory, createChapter, setB, getB, getElementStorageKey, compileElements,
      ELEMENT_TYPE_KEYS, List.lookup]

/-- C4 witness: the concrete fresh story and a named character exercise
the singular-key creation and the compileStoryState read. -/
theorem c4_singular_plural_split_witness :
    getB (createStory "W").elements "character" = none ∧
    getB (ecCreate (createStory "W") "character" wData).story.elements "character" =
      some [createElementCore "character" wData] ∧
    getB (ecCreate (createStory "W") "character" wData).story.elements
        (getElementStorageKey "character") =
      getB (createStory "W").elements (getElementStorageKey "character") ∧
    (compileElements (ecCreate (createStory "W") "character" wData).story).lookup
        "character" =
      some
        [{ cid := (createElementCore "character" wData).id,
           name := (createElementCore "character" wData).name,
           description := (createElementCore "character" wData).description,
           typ := (createElementCore "character" wData).typ }] :=
  c4_singular_plural_split "W" "character" wData "Alice" (by decide) (by decide) (by decide)

theorem countId_cons (k : String) (es : List Element)
    (rest : List (String × List Element)) (id : String) :
    countId ((k, es) :: rest) id = es.countP (fun e => e.id == id) + countId rest id := by
  simp [countId]

theorem findByIdIn_eq_none_of_countId_zero (m : List (String × List Element))
    (id : String) (h : countId m id = 0) : findByIdIn m id = none := by
  induction m with
  | nil => rfl
  | cons p rest ih =>
    obtain ⟨k, es⟩ := p
    rw [countId_cons] at h
    have h1 : es.countP (fun e => e.id == id) = 0 ∧ countId rest id = 0 := by
      omega
    have hfind : es.find? (fun e => e.id == id) = none := by
      rw [List.find?_eq_none]
      intro x hx
      have hx0 := List.countP_eq_zero.1 h1.1 x hx
      simpa using hx0
    simp [findByIdIn, hfind, ih h1.2]

theorem findByIdIn_typ_mem (m : List (String × List Element)) (id : String)
    (e : Element) (h : findByIdIn m id = some e) : e.typ ∈ m.map Prod.fst := by
  induction m with
  | nil => simp [findByIdIn] at h
  | cons p rest ih =>
    obtain ⟨k, es⟩ := p
    cases hf : es.find? (fun x => x.id == id) with
    | some x =>
      simp [findByIdIn, hf] at h
      simp [← h]
    | none =>
      simp only [findByIdIn, hf] at h
      exact List.mem_cons_of_mem _ (ih h)

theorem countId_remove (m : List (String × List Element)) (id : String) (e : Element)
    (hkeys : (m.map Prod.fst).Nodup) (huniq : countId m id ≤ 1)
    (hfound : findByIdIn m id = some e) :
    countId (setB m e.typ (((getB m e.typ).getD []).filter (fun x => x.id != id))) id
      = 0 := by
  induction m with
  | nil => simp [findByIdIn] at hfound
  | cons p rest ih =>
    obtain ⟨k, es⟩ := p
    cases hf : es.find? (fun x => x.id == id) with
    | some x =>
      have he : e = { x with typ := k } := by
        simp [findByIdIn, hf] at hfound
        exact hfound.symm
      have hetyp : e.typ = k := by rw [he]
      have hC : 1 ≤ es.countP (fun x => x.id == id) := by
        have hx := List.find?_some hf
        have hxm := List.mem_of_find?_eq_some hf
        exact List.countP_pos_iff.2 ⟨x, hxm, hx⟩
      have hrest : countId rest id = 0 := by
        rw [countId_cons] at huniq
        omega
      have hfilter :
          (es.filter (fun x => x.id != id)).countP (fun x => x.id == id) = 0 := by
        rw [List.countP_eq_zero]
        intro a ha
        have := (List.mem_filter.1 ha).2
        simpa using this
      rw [hetyp]
      have hred :
          setB ((k, es) :: rest) k
              (((getB ((k, es) :: rest) k).getD []).filter (fun x => x.id != id)) =
            (k, es.filter (fun x => x.id != id)) :: rest := by
        simp [setB, getB]
      rw [hred, countId_cons, hfilter, hrest]
    | none =>
      have hfr : findByIdIn rest id = some e := by
        simpa [findByIdIn, hf] using hfound
      have hkne : e.typ ≠ k := by
        have hmem := findByIdIn_typ_mem rest id e hfr
        intro hcontra
        rw [hcontra] at hmem
        exact (List.nodup_cons.1 (by simpa using hkeys)).1 hmem
      have hes0 : es.countP (fun x => x.id == id) = 0 := by
        rw [List.countP_eq_zero]
        intro a ha
        have := List.find?_eq_none.1 hf a ha
        simpa using this
      have hrest1 : countId rest id ≤ 1 := by
        rw [countId_cons] at huniq
        omega
      have hkeys' : (rest.map Prod.fst).Nodup :=
        (List.nodup_cons.1 (by simpa using hkeys)).2
      have hih := ih hkeys' hrest1 hfr
      simp only [setB, getB, if_neg (Ne.symm hkne)]
      rw [countId_cons, hes0]
      simpa using hih

/-- C1: removing an element by id makes getById on that id return null and
strips every relationship referencing the id as source or target. The two
uniqueness hypotheses state that the story is a JS object graph: property
keys are distinct and the element id occurs at most once across the
buckets. -/
theorem c1_remove_cascade (s : Story) (id : String) (e : Element)
    (hpresent : getById s id = some e)
    (hkeys : (s.elements.map Prod.fst).Nodup)
    (huniq : countId s.elements id ≤ 1) :
    getById (ecRemove s id).story id = none ∧
    ∀ r ∈ (ecRemove s id).story.relationships, r.sourceId ≠ id ∧ r.targetId ≠ id := by
  have hid : id ≠ "" := by
    intro h
    rw [getById, if_pos h] at hpresent
    cases hpresent
  have hfb : findByIdIn s.elements id = some e := by
    rw [getById, if_neg hid] at hpresent
    exact hpresent
  have hstory :
      (ecRemove s id).story =
        { s with
          elements :=
            setB s.elements e.typ
              (((getB s.elements e.typ).getD []).filter (fun x => x.id != id))
          relationships :=
            s.relationships.filter (fun r => r.sourceId != id && r.targetId != id)
          updatedAt := NOW } := by
    simp [ecRemove, hpresent]
  rw [hstory]
  constructor
  · rw [getById, if_neg hid]
    exact findByIdIn_eq_none_of_countId_zero _ id (countId_remove s.elements id e hkeys huniq hfb)
  · intro r hr
    have := (List.mem_filter.1 hr).2
    constructor
    · intro hcontra
      simp [hcontra] at this
    · intro hcontra
      simp [hcontra] at this

/-- C1 witness: removing element a from the concrete story removes it from
lookup and strips the relationship r1 that referenced it. -/
theorem c1_remove_cascade_witness :
    getById (ecRemove wStory "a").story "a" = none ∧
    ∀ r ∈ (ecRemove wStory "a").story.relationships,
      r.sourceId ≠ "a" ∧ r.targetId ≠ "a" :=
  c1_remove_cascade wStory "a" { wElA with typ := "characters" } (by decide) (by decide)
    (by decide)

/-- C5: on a story whose chapter list is exactly one chapter reading
"Once upon a time." and whose version list is empty, applying a
text-only continuation at index 0 appends (never replaces) the narrative
onto the chapter with the two-newline separator, and the version list
gains exactly one snapshot labelled from the continuation title and
built from the pre-change story. The hasTypeBuckets hypothesis keeps the
statement inside the domain where the JS snapshot construction does not
throw. -/
theorem c5_applyContinuation_appends (s : Story) (ch : Chapter) (t : String)
    (hch : s.chapters = [ch]) (hcontent : ch.content = "Once upon a time.")
    (hvers : s.versions = []) (hb : hasTypeBuckets s = true) :
    ∃ s', applyContinuation s (textOnlyContinuation t " And then...") 0 = .ok s' ∧
      s'.chapters.map (fun c => c.content) = ["Once upon a time.\n\n And then..."] ∧
      s'.versions = [createVersionSnapshot s ("Before: " ++ t)] := by
  have h1 : applyContinuation s (textOnlyContinuation t " And then...") 0 =
      .ok
        { s with
          versions := [createVersionSnapshot s ("Before: " ++ t)]
          currentVersion := s.currentVersion + 1
          chapters := [{ ch with content := ch.content ++ "\n\n" ++ " And then..." }]
          updatedAt := NOW } := by
    simp [applyContinuation, textOnlyContinuation, scCreateVersion, scUpdateChapter,
      applySynopsis, phaseNewElements, phaseUpdatedElements, phaseNewRelationships,
      mapWithIdx, maxVersions, hch, hvers]
    rfl
  refine ⟨_, h1, ?_, rfl⟩
  rw [hcontent]
  simp

/-- C5 witness: the concrete one-chapter story with the scenario
content. -/
theorem c5_applyContinuation_appends_witness :
    ∃ s', applyContinuation wStory1 (textOnlyContinuation "The Twist" " And then...") 0
        = .ok s' ∧
      s'.chapters.map (fun c => c.content) = ["Once upon a time.\n\n And then..."] ∧
      s'.versions = [createVersionSnapshot wStory1 ("Before: " ++ "The Twist")] :=
  c5_applyContinuation_appends wStory1 wChapter "The Twist" rfl rfl rfl (by decide)

theorem lastN_of_length_le {α : Type} (n : Nat) (l : List α) (h : l.length ≤ n) :
    lastN n l = l := by
  rw [lastN, List.take_of_length_le (by simpa using h), List.reverse_reverse]

theorem scCreateVersion_versions (s : Story) (m : String) :
    (scCreateVersion s m).versions =
      lastN 3 (s.versions ++ [createVersionSnapshot s m]) := by
  show
    (if (s.versions ++ [createVersionSnapshot s m]).length > maxVersions then
        lastN maxVersions (s.versions ++ [createVersionSnapshot s m])
      else s.versions ++ [createVersionSnapshot s m]) =
      lastN 3 (s.versions ++ [createVersionSnapshot s m])
  split
  · rfl
  · next hle => rw [lastN_of_length_le 3 _ (Nat.le_of_not_lt hle)]

theorem lastN3_snoc {α : Type} (A : List α) (b : α) :
    lastN 3 (lastN 3 A ++ [b]) = lastN 3 (A ++ [b]) := by
  simp [lastN, List.reverse_append, List.take_succ_cons, List.take_take]

theorem lastN3_append_right {α : Type} (A B : List α) (h : 3 ≤ B.length) :
    lastN 3 (A ++ B) = lastN 3 B := by
  simp only [lastN, List.reverse_append]
  rw [List.take_append_of_le_length (by simpa using h)]

theorem iter_versions (s : Story) (f : Nat → String) :
    ∀ n, 1 ≤ n →
      (iterCreateVersion s f n).versions =
        lastN 3 (s.versions ++ (List.range n).map (snapAt s f)) := by
  intro n hn
  induction n with
  | zero => omega
  | succ k ih =>
    by_cases hk : 1 ≤ k
    · have ihk := ih hk
      show (scCreateVersion (iterCreateVersion s f k) (f k)).versions = _
      rw [scCreateVersion_versions, ihk]
      have hsnap : createVersionSnapshot (iterCreateVersion s f k) (f k) = snapAt s f k := rfl
      rw [hsnap, lastN3_snoc, List.range_succ, List.map_append, ← List.append_assoc]
      simp
    · have hk0 : k = 0 := by omega
      subst hk0
      show (scCreateVersion (iterCreateVersion s f 0) (f 0)).versions = _
      rw [scCreateVersion_versions]
      simp [iterCreateVersion, snapAt, List.range_succ]

theorem iter_currentVersion (s : Story) (f : Nat → String) :
    ∀ n, (iterCreateVersion s f n).currentVersion = s.currentVersion + n := by
  intro n
  induction n with
  | zero => rfl
  | succ k ih =>
    show (scCreateVersion (iterCreateVersion s f k) (f k)).currentVersion = _
    simp [scCreateVersion, ih]
    omega

/-- C6: after N createVersion calls with N over the cap of 3, the version
list is exactly the 3 most recently appended snapshots in insertion order
(snapshots of calls N-2, N-1, N, the older ones evicted first), and each
call increments currentVersion by one. The hasTypeBuckets hypothesis keeps
the statement inside the domain where the JS snapshot construction does
not throw. -/
theorem c6_version_cap_fifo (s : Story) (f : Nat → String) (N : Nat) (hN : 3 < N)
    (hb : hasTypeBuckets s = true) :
    (iterCreateVersion s f N).versions =
      [snapAt s f (N - 3), snapAt s f (N - 2), snapAt s f (N - 1)] ∧
    (iterCreateVersion s f N).currentVersion = s.currentVersion + N ∧
    ∀ k, (iterCreateVersion s f (k + 1)).currentVersion =
      (iterCreateVersion s f k).currentVersion + 1 := by
  refine ⟨?_, iter_currentVersion s f N, ?_⟩
  · rw [iter_versions s f N (by omega)]
    have hsplit : List.range N = List.range (N - 3) ++ [N - 3, N - 3 + 1, N - 3 + 2] := by
      rw [show N = N - 3 + 3 by omega, List.range_add]
      simp [List.range_succ]
    rw [hsplit, List.map_append, ← List.append_assoc,
      lastN3_append_right _ _ (by simp), lastN_of_length_le 3 _ (by simp)]
    have e1 : N - 3 + 1 = N - 2 := by omega
    have e2 : N - 3 + 2 = N - 1 := by omega
    rw [List.map_cons, List.map_cons, List.map_cons, List.map_nil, e1, e2]
  · intro k
    show (scCreateVersion (iterCreateVersion s f k) (f k)).currentVersion = _
    simp [scCreateVersion]

/-- Summary labels for the C6 witness iteration. -/
def wSummaries (k : Nat) : String := toString k

/-- C6 witness: four createVersion calls on the concrete story leave the
snapshots of calls 2, 3 and 4, currentVersion grown by 4, and call 1
incremented currentVersion by one. -/
theorem c6_version_cap_fifo_witness :
    (iterCreateVersion wStory1 wSummaries 4).versions =
      [snapAt wStory1 wSummaries 1, snapAt wStory1 wSummaries 2,
       snapAt wStory1 wSummaries 3] ∧
    (iterCreateVersion wStory1 wSummaries 4).currentVersion =
      wStory1.currentVersion + 4 ∧
    (iterCreateVersion wStory1 wSummaries (0 + 1)).currentVersion =
      (iterCreateVersion wStory1 wSummaries 0).currentVersion + 1 :=
  ⟨(c6_version_cap_fifo wStory1 wSummaries 4 (by decide) (by decide)).1,
   (c6_version_cap_fifo wStory1 wSummaries 4 (by decide) (by decide)).2.1,
   (c6_version_cap_fifo wStory1 wSummaries 4 (by decide) (by decide)).2.2 0⟩


theorem eraseIdx_of_length_le {α : Type} :
    ∀ (l : List α) (i : Nat), l.length ≤ i → l.eraseIdx i = l := by
  intro l
  induction l with
  | nil => intro i _; rfl
  | cons a rest ih =>
    intro i h
    cases i with
    | zero => simp at h
    | succ j =>
      simp only [List.eraseIdx]
      rw [ih j (by simpa using h)]

theorem hasTypeBuckets_mono (s s' : Story)
    (hm : ∀ key, (getB s.elements key).isSome = true → (getB s'.elements key).isSome = true)
    (hb : hasTypeBuckets s = true) : hasTypeBuckets s' = true := by
  simp only [hasTypeBuckets, List.all_cons, List.all_nil, Bool.and_eq_true,
    Bool.and_true] at hb ⊢
  exact ⟨hm _ hb.1, hm _ hb.2.1, hm _ hb.2.2.1, hm _ hb.2.2.2.1, hm _ hb.2.2.2.2⟩

theorem StoryInv_transfer (s s' : Story)
    (hch : s'.chapters = s.chapters)
    (hidx : s'.currentChapterIndex = s.currentChapterIndex)
    (hm : ∀ key, (getB s.elements key).isSome = true → (getB s'.elements key).isSome = true)
    (h : StoryInv s) : StoryInv s' := by
  obtain ⟨h1, h2, h3⟩ := h
  exact ⟨by rw [hch]; exact h1, by rw [hch, hidx]; exact h2, hasTypeBuckets_mono s s' hm h3⟩

theorem inv_scAddChapter (s : Story) (t : String) (h : StoryInv s) :
    StoryInv (scAddChapter s t) := by
  obtain ⟨h1, h2, h3⟩ := h
  refine ⟨by simp [scAddChapter], by simp [scAddChapter], ?_⟩
  simpa [hasTypeBuckets, scAddChapter] using h3

theorem length_mapWithIdx (f : Nat → Chapter → Chapter) :
    ∀ (n : Nat) (l : List Chapter), (mapWithIdx f n l).length = l.length := by
  intro n l
  induction l generalizing n with
  | nil => rfl
  | cons c rest ih => simp [mapWithIdx, ih]

theorem inv_scUpdateChapter (s : Story) (i : Nat) (u : ChapterUpdates) (h : StoryInv s) :
    StoryInv (scUpdateChapter s i u) := by
  obtain ⟨h1, h2, h3⟩ := h
  refine ⟨?_, ?_, ?_⟩
  · show mapWithIdx _ 0 s.chapters ≠ []
    intro hcontra
    have hl := congrArg List.length hcontra
    rw [length_mapWithIdx] at hl
    exact h1 (List.length_eq_zero.mp (by simpa using hl))
  · show s.currentChapterIndex < (mapWithIdx _ 0 s.chapters).length
    rw [length_mapWithIdx]
    exact h2
  · simpa [hasTypeBuckets, scUpdateChapter] using h3

theorem inv_scRemoveChapter (s : Story) (i : Nat) (s' : Story) (h : StoryInv s)
    (hok : scRemoveChapter s i = .ok s') : StoryInv s' := by
  obtain ⟨h1, h2, h3⟩ := h
  unfold scRemoveChapter at hok
  split at hok
  · cases hok
  · next hlen =>
    injection hok with hok
    subst hok
    have hlen2 : 2 ≤ s.chapters.length := by omega
    rcases Nat.lt_or_ge i s.chapters.length with hi | hi
    · have hle := List.length_eraseIdx_add_one (l := s.chapters) (i := i) hi
      refine ⟨?_, ?_, h3⟩
      · show s.chapters.eraseIdx i ≠ []
        intro hcontra
        have hl := congrArg List.length hcontra
        simp only [List.length_nil] at hl
        omega
      · show min s.currentChapterIndex (s.chapters.length - 2) < (s.chapters.eraseIdx i).length
        exact Nat.lt_of_le_of_lt
          (Nat.min_le_right s.currentChapterIndex (s.chapters.length - 2)) (by omega)
    · rw [eraseIdx_of_length_le s.chapters i hi]
      refine ⟨h1, ?_, h3⟩
      show min s.currentChapterIndex (s.chapters.length - 2) < s.chapters.length
      exact Nat.lt_of_le_of_lt
        (Nat.min_le_right s.currentChapterIndex (s.chapters.length - 2)) (by omega)

theorem inv_scCreateVersion (s : Story) (m : String) (h : StoryInv s) :
    StoryInv (scCreateVersion s m) := by
  obtain ⟨h1, h2, h3⟩ := h
  exact ⟨h1, h2, by simpa [hasTypeBuckets, scCreateVersion] using h3⟩

theorem inv_applySynopsis (s : Story) (syn : Option String) (h : StoryInv s) :
    StoryInv (applySynopsis s syn) := by
  unfold applySynopsis
  split
  · split
    · exact h
    · obtain ⟨h1, h2, h3⟩ := h
      exact ⟨h1, h2, by simpa [hasTypeBuckets] using h3⟩
  · exact h

theorem except_bind_error {α β : Type} (e : String) (f : α → Except String β) :
    (Except.error e >>= f) = Except.error e := rfl

theorem except_bind_ok {α β : Type} (a : α) (f : α → Except String β) :
    (Except.ok a >>= f) = f a := rfl

theorem except_pure {α : Type} (a : α) : (pure a : Except String α) = Except.ok a := rfl

theorem bind_eq_ok_decomp {α β : Type} {x : Except String α} {f : α → Except String β}
    {y : β} (h : (x >>= f) = .ok y) : ∃ z, x = .ok z ∧ f z = .ok y := by
  cases x with
  | error e => rw [except_bind_error] at h; cases h
  | ok z => exact ⟨z, rfl, by rwa [except_bind_ok] at h⟩

theorem setB_mono (m : List (String × List Element)) (k : String) (v : List Element) :
    ∀ key, (getB m key).isSome = true → (getB (setB m k v) key).isSome = true :=
  fun key hk => isSome_getB_setB m k v key hk

theorem inv_ecCreate (s : Story) (t : String) (d : ElementData) (h : StoryInv s) :
    StoryInv (ecCreate s t d).story := by
  unfold ecCreate
  split
  · dsimp only
    split
    · exact StoryInv_transfer s _ rfl rfl (setB_mono s.elements t _) h
    · exact h
  · exact h

theorem inv_ecUpdate (s : Story) (id : String) (u : ElementData) (h : StoryInv s) :
    StoryInv (ecUpdate s id u).story := by
  unfold ecUpdate
  split
  · exact h
  · dsimp only
    split
    · split
      · exact StoryInv_transfer s _ rfl rfl (setB_mono s.elements _ _) h
      · exact h
    · exact h

theorem inv_ecRemove (s : Story) (id : String) (h : StoryInv s) :
    StoryInv (ecRemove s id).story := by
  unfold ecRemove
  split
  · exact h
  · dsimp only
    exact StoryInv_transfer s _ rfl rfl (setB_mono s.elements _ _) h

theorem inv_ecDuplicate (s : Story) (id : String) (h : StoryInv s) :
    StoryInv (ecDuplicate s id).story := by
  unfold ecDuplicate
  split
  · exact h
  · exact inv_ecCreate s _ _ h

theorem inv_ecReorder (s : Story) (t : String) (fromIndex toIndex : Nat)
    (h : StoryInv s) : StoryInv (ecReorder s t fromIndex toIndex) := by
  unfold ecReorder
  split
  · exact h
  · split
    · exact h
    · split
      · exact h
      · split
        · exact h
        · exact StoryInv_transfer s _ rfl rfl (setB_mono s.elements t _) h

theorem relationships_mono (s : Story) (rels : List Relationship) :
    ∀ key, (getB s.elements key).isSome = true →
      (getB ({ s with relationships := rels, updatedAt := NOW }).elements key).isSome = true :=
  fun _ hk => hk

theorem inv_rcCreate (s : Story) (d : RelationshipData) (res : RcResult)
    (h : StoryInv s) (hok : rcCreate s d = .ok res) : StoryInv res.story := by
  unfold rcCreate at hok
  dsimp only at hok
  split at hok
  · cases hcr : createRelationship d.sourceId d.targetId d.type d.description with
    | error e =>
      rw [hcr, except_bind_error] at hok
      cases hok
    | ok rel =>
      rw [hcr, except_bind_ok] at hok
      split at hok
      · rw [except_pure] at hok
        injection hok with hok
        subst hok
        exact StoryInv_transfer s _ rfl rfl (fun _ hk => hk) h
      · rw [except_pure] at hok
        injection hok with hok
        subst hok
        exact h
  · injection hok with hok
    subst hok
    exact h

theorem inv_rcUpdate (s : Story) (id : String) (u : RelUpdates) (h : StoryInv s) :
    StoryInv (rcUpdate s id u).story := by
  unfold rcUpdate
  split
  · exact h
  · dsimp only
    split
    · split
      · exact StoryInv_transfer s _ rfl rfl (fun _ hk => hk) h
      · exact h
    · exact h

theorem inv_rcRemove (s : Story) (id : String) (h : StoryInv s) :
    StoryInv (rcRemove s id).story := by
  unfold rcRemove
  split
  · exact h
  · exact StoryInv_transfer s _ rfl rfl (fun _ hk => hk) h

theorem inv_rcRemoveForElement (s : Story) (elementId : String) (h : StoryInv s) :
    StoryInv (rcRemoveForElement s elementId).story := by
  unfold rcRemoveForElement
  dsimp only
  split
  · exact StoryInv_transfer s _ rfl rfl (fun _ hk => hk) h
  · exact StoryInv_transfer s _ rfl rfl (fun _ hk => hk) h

theorem inv_rcSwapDirection (s : Story) (id : String) (h : StoryInv s) :
    StoryInv (rcSwapDirection s id).story := by
  unfold rcSwapDirection
  split
  · exact h
  · exact inv_rcUpdate s id _ h

theorem inv_scAddElement (s : Story) (t : String) (d : ElementData) (y : Story)
    (h : StoryInv s) (hok : scAddElement s t d = .ok y) : StoryInv y := by
  unfold scAddElement at hok
  dsimp only at hok
  cases hcr : createElement t d with
  | error e =>
    rw [hcr, except_bind_error] at hok
    cases hok
  | ok el =>
    rw [hcr, except_bind_ok, except_pure] at hok
    injection hok with hok
    subst hok
    exact StoryInv_transfer s _ rfl rfl (setB_mono s.elements _ _) h

theorem inv_scUpdateElement (s : Story) (t elementId : String) (u : ElementData)
    (y : Story) (h : StoryInv s) (hok : scUpdateElement s t elementId u = .ok y) :
    StoryInv y := by
  unfold scUpdateElement at hok
  dsimp only at hok
  split at hok
  · cases hok
  · injection hok with hok
    subst hok
    exact StoryInv_transfer s _ rfl rfl (setB_mono s.elements _ _) h

theorem inv_scAddRelationship (s : Story) (sourceId targetId rtype description : String)
    (y : Story) (h : StoryInv s)
    (hok : scAddRelationship s sourceId targetId rtype description = .ok y) :
    StoryInv y := by
  unfold scAddRelationship at hok
  cases hcr : createRelationship sourceId targetId rtype description with
  | error e =>
    rw [hcr, except_bind_error] at hok
    cases hok
  | ok rel =>
    rw [hcr, except_bind_ok, except_pure] at hok
    injection hok with hok
    subst hok
    exact StoryInv_transfer s _ rfl rfl (fun _ hk => hk) h

theorem foldlM_except_inv {α : Type} (P : Story → Prop)
    (f : Story → α → Except String Story)
    (hf : ∀ x a y, P x → f x a = .ok y → P y) :
    ∀ (l : List α) (x y : Story), P x → l.foldlM f x = .ok y → P y := by
  intro l
  induction l with
  | nil =>
    intro x y hx hfold
    rw [List.foldlM_nil, except_pure] at hfold
    injection hfold with hfold
    subst hfold
    exact hx
  | cons a l ih =>
    intro x y hx hfold
    rw [List.foldlM_cons] at hfold
    cases hfa : f x a with
    | error e => rw [hfa, except_bind_error] at hfold; cases hfold
    | ok z => rw [hfa, except_bind_ok] at hfold; exact ih z y (hf x a z hx hfa) hfold

theorem inv_applyNewElements (s : Story) (ne : NewElements) (y : Story)
    (h : StoryInv s) (hok : applyNewElements s ne = .ok y) : StoryInv y := by
  unfold applyNewElements at hok
  refine foldlM_except_inv StoryInv _ ?_ ELEMENT_TYPE_KEYS s y h hok
  intro x t z hx hfz
  exact foldlM_except_inv StoryInv _
    (fun x2 d z2 hx2 h2 => inv_scAddElement x2 t d z2 hx2 h2) (ne.bucket t) x z hx hfz

theorem inv_applyUpdatedElements (s : Story) (ups : List UpdatedElement) (y : Story)
    (h : StoryInv s) (hok : applyUpdatedElements s ups = .ok y) : StoryInv y := by
  unfold applyUpdatedElements at hok
  exact foldlM_except_inv StoryInv _
    (fun x u z hx2 h2 => inv_scUpdateElement x u.type u.uid u.updates z hx2 h2)
    ups s y h hok

theorem inv_applyNewRelationships (s : Story) (rels : List RelProposal) (y : Story)
    (h : StoryInv s) (hok : applyNewRelationships s rels = .ok y) : StoryInv y := by
  unfold applyNewRelationships at hok
  refine foldlM_except_inv StoryInv _ ?_ rels s y h hok
  intro x rel z hx hfz
  split at hfz
  · exact inv_scAddRelationship x _ _ _ _ z hx hfz
  · injection hfz with hfz
    subst hfz
    exact hx

theorem inv_phaseNewElements (o : Option NewElements) (x y : Story) (h : StoryInv x)
    (hok : phaseNewElements o x = .ok y) : StoryInv y := by
  unfold phaseNewElements at hok
  split at hok
  · exact inv_applyNewElements _ _ _ h hok
  · injection hok with hok
    subst hok
    exact h

theorem inv_phaseUpdatedElements (o : Option (List UpdatedElement)) (x y : Story)
    (h : StoryInv x) (hok : phaseUpdatedElements o x = .ok y) : StoryInv y := by
  unfold phaseUpdatedElements at hok
  split at hok
  · exact inv_applyUpdatedElements _ _ _ h hok
  · injection hok with hok
    subst hok
    exact h

theorem inv_phaseNewRelationships (o : Option (List RelProposal)) (x y : Story)
    (h : StoryInv x) (hok : phaseNewRelationships o x = .ok y) : StoryInv y := by
  unfold phaseNewRelationships at hok
  split at hok
  · exact inv_applyNewRelationships _ _ _ h hok
  · injection hok with hok
    subst hok
    exact h

theorem inv_applyContinuation (s : Story) (c : ContinuationOption) (i : Nat) (y : Story)
    (h : StoryInv s) (hok : applyContinuation s c i = .ok y) : StoryInv y := by
  unfold applyContinuation at hok
  dsimp only at hok
  cases hch : (scCreateVersion s ("Before: " ++ c.title)).chapters.get? i with
  | none =>
    rw [hch] at hok
    cases hok
  | some ch =>
    rw [hch] at hok
    obtain ⟨s5, h45, hp6⟩ := bind_eq_ok_decomp hok
    obtain ⟨s4, hp4, hp5⟩ := bind_eq_ok_decomp h45
    have h3 :
        StoryInv
          (applySynopsis
            (scUpdateChapter (scCreateVersion s ("Before: " ++ c.title)) i
              { title := none
                content := some (ch.content ++ "\n\n" ++ c.continuation.chapterContent) })
            c.continuation.synopsis) :=
      inv_applySynopsis _ _ (inv_scUpdateChapter _ _ _ (inv_scCreateVersion _ _ h))
    have h4 := inv_phaseNewElements c.continuation.newElements _ s4 h3 hp4
    have h5 := inv_phaseUpdatedElements c.continuation.updatedElements s4 s5 h4 hp5
    exact inv_phaseNewRelationships c.continuation.newRelationships s5 y h5 hp6

theorem inv_createStory (title : String) : StoryInv (createStory title) :=
  ⟨by simp [createStory], by simp [createStory], rfl⟩

/-- C9: createStory establishes the data-model invariants (non-empty
chapter list, valid currentChapterIndex, the element-type buckets
installed at creation present), and every mutation operation preserves
them: the chapter operations (addChapter, updateChapter, removeChapter
when more than one chapter remains), createVersion, applyContinuation
when it returns, and the element and relationship controller
operations. -/
theorem c9_invariants_preserved :
    (∀ title, StoryInv (createStory title)) ∧
    (∀ s title, StoryInv s → StoryInv (scAddChapter s title)) ∧
    (∀ s i u, StoryInv s → StoryInv (scUpdateChapter s i u)) ∧
    (∀ s i s', StoryInv s → 2 ≤ s.chapters.length →
      scRemoveChapter s i = .ok s' → StoryInv s') ∧
    (∀ s m, StoryInv s → StoryInv (scCreateVersion s m)) ∧
    (∀ s c i s', StoryInv s → applyContinuation s c i = .ok s' → StoryInv s') ∧
    (∀ s t d, StoryInv s → StoryInv (ecCreate s t d).story) ∧
    (∀ s id u, StoryInv s → StoryInv (ecUpdate s id u).story) ∧
    (∀ s id, StoryInv s → StoryInv (ecRemove s id).story) ∧
    (∀ s id, StoryInv s → StoryInv (ecDuplicate s id).story) ∧
    (∀ s t i j, StoryInv s → StoryInv (ecReorder s t i j)) ∧
    (∀ s d res, StoryInv s → rcCreate s d = .ok res → StoryInv res.story) ∧
    (∀ s id u, StoryInv s → StoryInv (rcUpdate s id u).story) ∧
    (∀ s id, StoryInv s → StoryInv (rcRemove s id).story) ∧
    (∀ s id, StoryInv s → StoryInv (rcRemoveForElement s id).story) ∧
    (∀ s id, StoryInv s → StoryInv (rcSwapDirection s id).story) :=
  ⟨inv_createStory,
   inv_scAddChapter,
   inv_scUpdateChapter,
   fun s i s' h _ hok => inv_scRemoveChapter s i s' h hok,
   inv_scCreateVersion,
   fun s c i s' h hok => inv_applyContinuation s c i s' h hok,
   inv_ecCreate,
   inv_ecUpdate,
   inv_ecRemove,
   inv_ecDuplicate,
   inv_ecReorder,
   inv_rcCreate,
   inv_rcUpdate,
   inv_rcRemove,
   inv_rcRemoveForElement,
   inv_rcSwapDirection⟩

/-- C9 witness: the invariants hold on the fresh concrete story and
survive adding a chapter to it. -/
theorem c9_invariants_preserved_witness :
    StoryInv (createStory "W") ∧ StoryInv (scAddChapter (createStory "W") "Two") :=
  ⟨c9_invariants_preserved.1 "W",
   c9_invariants_preserved.2.1 (createStory "W") "Two" (c9_invariants_preserved.1 "W")⟩

end StoryForge
